import Mathlib

/-!
Shallow embedding of the compilation core of `autograph`
(`src/autograph/src/flow.rs` and the operator catalog in
`src/autograph/src/nodes.rs`), together with theorems settling the
specification claims about `Flow::compile_to_hlx`.

Modelling conventions:
* `serde_json::Value` is modelled by `Json`.  Integer-backed JSON numbers
  carry their `Int` value; float-backed numbers carry the string that
  Rust's `Display` for `f64` produces for them (the compiler only ever
  formats the float into the emitted text, so the rendering is the only
  observable).  For an integer-backed number, `as_f64` followed by
  `Display` prints the integer without a fractional part, which is the
  decimal rendering of the integer for the magnitudes that occur here.
* Rust `u64` division and remainder panic when the divisor is zero.
  `compile_to_hlx` divides by the configured `cols` of a `tensor_create`
  node, so the embedding returns `Option String`: `none` models a panic,
  `some t` models the normal return of the text `t`.  Every other step of
  the function is total.
* `position` on a node is UI-only (`// For UI only` in the source) and is
  never read by compilation; it is omitted from the embedding.
-/

namespace Autograph

/-- Model of `serde_json::Value`. -/
inductive Json where
  | null : Json
  | bool (b : Bool) : Json
  | intNum (n : Int) : Json
  | floatNum (render : String) : Json
  | str (s : String) : Json
  | arr (elems : List Json) : Json
  | obj (fields : List (String × Json)) : Json

namespace Json

/-- `value[key]` on a `serde_json::Value`: field lookup on objects,
`Null` on a missing key or a non-object. -/
def index (j : Json) (key : String) : Json :=
  match j with
  | .obj fields =>
      match fields.find? (fun kv => kv.1 == key) with
      | some kv => kv.2
      | none => .null
  | _ => .null

/-- `Value::as_str`: `Some` only on strings. -/
def as_str : Json → Option String
  | .str s => some s
  | _ => none

/-- `Value::as_u64`: `Some` only on integer-backed numbers in `u64` range. -/
def as_u64 : Json → Option Nat
  | .intNum n => if 0 ≤ n then some n.toNat else none
  | _ => none

/-- `Value::as_i64`: `Some` only on integer-backed numbers in `i64` range. -/
def as_i64 : Json → Option Int
  | .intNum n => if -(2 ^ 63) ≤ n ∧ n < 2 ^ 63 then some n else none
  | _ => none

/-- `Value::as_f64` composed with Rust `f64` `Display`: the decimal text
the compiler prints for the number.  `Some` on any JSON number. -/
def as_f64_render : Json → Option String
  | .intNum n => some (toString n)
  | .floatNum r => some r
  | _ => none

/-- `Value::as_array`. -/
def as_array : Json → Option (List Json)
  | .arr elems => some elems
  | _ => none

end Json

/-- `flow.rs` `Node` (the UI-only `position` field is never read by
compilation and is omitted). -/
structure Node where
  id : String
  type_name : String
  config : Json

/-- `flow.rs` `Edge`. -/
structure Edge where
  source : String
  target : String
  source_handle : Option String := none
  target_handle : Option String := none

/-- `flow.rs` `Flow`. -/
structure Flow where
  nodes : List Node
  edges : List Edge

namespace Flow

/-- `Flow::find_input_var`: the first edge targeting the node, mapped to
`<source>_out`; `none` when no edge targets it.  The existence of a node
named `source` is never checked. -/
def find_input_var (f : Flow) (node_id : String) : Option String :=
  (f.edges.find? (fun e => e.target == node_id)).map
    (fun e => e.source ++ "_out")

/-- `Flow::find_leaf_node`: the first node, in declaration order, that is
not the source of any edge. -/
def find_leaf_node (f : Flow) : Option Node :=
  f.nodes.find? (fun n => ! f.edges.any (fun e => e.source == n.id))

/-- The per-value statements of the `tensor_create` branch: for element
`i` of the `values` array the branch computes `r = i / cols` and
`c = i % cols` (`u64` division: a Rust panic, modelled as `none`, when
`cols = 0`) and emits a comment plus two raw data-store lines. -/
def tensorCreateLines (id : String) (cols : Nat) :
    List Json → Nat → Option String
  | [], _ => some ""
  | v :: rest, i =>
      if cols = 0 then
        none
      else
        match tensorCreateLines id cols rest (i + 1) with
        | none => none
        | some tail =>
            let r := i / cols
            let c := i % cols
            let val := (v.as_f64_render).getD "0"
            some ("    // Set (" ++ toString r ++ ", " ++ toString c
              ++ ") = " ++ val ++ "\n"
              ++ "    let " ++ id ++ "_data = " ++ id ++ "_t[2];\n"
              ++ "    " ++ id ++ "_data[" ++ toString i ++ "] = "
              ++ val ++ ";\n" ++ tail)

/-- The intrinsic chosen by the `tensor_op` branch for the configured
`op` (the inner `match op` of the branch). -/
def tensorOpFunc (op : String) : String :=
  match op with
  | "dot" => "tensor_matmul"
  | "add" => "tensor_add"
  | _ => "tensor_matmul"

/-- The text `compile_to_hlx` appends for one node: the body of the
`match node.type_name.as_str()` in the main loop.  `none` models the
`tensor_create` division-by-zero panic; every other arm is total. -/
def nodeBlock (f : Flow) (node : Node) : Option String :=
  match node.type_name with
  | "start" =>
      some ("    let " ++ node.id ++ "_out = input;\n")
  | "http_request" =>
      let url := ((node.config.index "url").as_str).getD ""
      let method := ((node.config.index "method").as_str).getD "GET"
      let input_var := (f.find_input_var node.id).getD "null"
      some ("    let " ++ node.id ++ "_out = http_request(\"" ++ method
        ++ "\", \"" ++ url ++ "\", " ++ input_var ++ ", \x7b\x7d);\n")
  | "json_parse" =>
      let input_var := (f.find_input_var node.id).getD "null"
      some ("    let " ++ node.id ++ "_out = json_parse("
        ++ input_var ++ ");\n")
  | "tensor_op" =>
      let op := ((node.config.index "op").as_str).getD "dot"
      let inputs := (f.edges.filter (fun e => e.target == node.id)).map
        (fun e => e.source ++ "_out")
      match inputs with
      | a :: b :: _ =>
          some ("    let " ++ node.id ++ "_out = " ++ tensorOpFunc op ++ "("
            ++ a ++ ", " ++ b ++ ");\n")
      | _ =>
          some ("    let " ++ node.id
            ++ "_out = null; // Error: Missing inputs for tensor op\n")
  | "tensor_create" =>
      let rows := ((node.config.index "rows").as_u64).getD 2
      let cols := ((node.config.index "cols").as_u64).getD 2
      let head := "    let " ++ node.id ++ "_t = tensor_new_2d("
        ++ toString rows ++ ", " ++ toString cols ++ ");\n"
      let mid :=
        match (node.config.index "values").as_array with
        | some values => tensorCreateLines node.id cols values 0
        | none => some ""
      match mid with
      | none => none
      | some m =>
          some (head ++ m ++ "    let " ++ node.id ++ "_out = "
            ++ node.id ++ "_t;\n")
  | "print" =>
      let input_var := (f.find_input_var node.id).getD "null"
      some ("    print(" ++ input_var ++ ");\n"
        ++ "    let " ++ node.id ++ "_out = " ++ input_var ++ ";\n")
  | _ =>
      some ("    // Unknown node type: " ++ node.type_name ++ "\n"
        ++ "    let " ++ node.id ++ "_out = null;\n")

/-- The return statement appended after the node loop. -/
def returnStmt (f : Flow) : String :=
  match f.find_leaf_node with
  | some last_node => "    return " ++ last_node.id ++ "_out;\n"
  | none => "    return null;\n"

/-- The node loop of `compile_to_hlx`: the concatenation, in declaration
order, of each node's block.  `none` models a panic in some block. -/
def emitNodes (f : Flow) : List Node → Option String
  | [] => some ""
  | n :: rest =>
      match f.nodeBlock n, f.emitNodes rest with
      | some b, some s => some (b ++ s)
      | _, _ => none

/-- `Flow::compile_to_hlx`: header, one block per node in declaration
order, the return statement, and the footer.  `none` models the
`tensor_create` division-by-zero panic. -/
def compile_to_hlx (f : Flow) : Option String :=
  match f.emitNodes f.nodes with
  | none => none
  | some body =>
      some ("program workflow \x7b\n\n" ++ "fn main(input) \x7b\n"
        ++ body ++ f.returnStmt ++ "\x7d\n\n" ++ "\x7d\n")

end Flow

/-! ## Operator catalog (`src/autograph/src/nodes.rs`)

Each `NodeDef` mirrors one `static` in `nodes.rs`: name, category,
description, default configuration (the value the zero-argument
`default_config` closure returns) and the `generate_code` closure
(`node_id`, `config`, optional resolved `input_var` to emitted text).
-/

/-- `nodes.rs` `NodeDef`. -/
structure NodeDef where
  name : String
  category : String
  description : String
  default_config : Json
  generate_code : String → Json → Option String → String

/-- `nodes.rs` static `START`. -/
def START : NodeDef :=
  { name := "start", category := "Control"
    description := "Entry point for workflow"
    default_config := Json.obj []
    generate_code := fun node_id _config _input_var =>
      "    let " ++ node_id ++ "_out = input;\n" }

/-- `nodes.rs` static `PRINT`. -/
def PRINT : NodeDef :=
  { name := "print", category := "Debug"
    description := "Print value to console"
    default_config := Json.obj []
    generate_code := fun node_id _config input_var =>
      let input := input_var.getD "null"
      "    print(" ++ input ++ ");\n    let " ++ node_id ++ "_out = "
        ++ input ++ ";\n" }

/-- `nodes.rs` static `HTTP_GET`. -/
def HTTP_GET : NodeDef :=
  { name := "http_get", category := "HTTP"
    description := "HTTP GET request"
    default_config := Json.obj [("url", Json.str "https://example.com")]
    generate_code := fun node_id config _input_var =>
      let url := ((config.index "url").as_str).getD "https://example.com"
      "    let " ++ node_id ++ "_out = http_request(\"GET\", \"" ++ url
        ++ "\", null, \x7b\x7d);\n" }

/-- `nodes.rs` static `HTTP_POST`. -/
def HTTP_POST : NodeDef :=
  { name := "http_post", category := "HTTP"
    description := "HTTP POST request"
    default_config := Json.obj [("url", Json.str "https://example.com")]
    generate_code := fun node_id config input_var =>
      let url := ((config.index "url").as_str).getD "https://example.com"
      let body := input_var.getD "null"
      "    let " ++ node_id ++ "_out = http_request(\"POST\", \"" ++ url
        ++ "\", " ++ body ++ ", \x7b\x7d);\n" }

/-- `nodes.rs` static `HTTP_PUT`. -/
def HTTP_PUT : NodeDef :=
  { name := "http_put", category := "HTTP"
    description := "HTTP PUT request"
    default_config := Json.obj [("url", Json.str "https://example.com")]
    generate_code := fun node_id config input_var =>
      let url := ((config.index "url").as_str).getD "https://example.com"
      let body := input_var.getD "null"
      "    let " ++ node_id ++ "_out = http_request(\"PUT\", \"" ++ url
        ++ "\", " ++ body ++ ", \x7b\x7d);\n" }

/-- `nodes.rs` static `HTTP_DELETE`. -/
def HTTP_DELETE : NodeDef :=
  { name := "http_delete", category := "HTTP"
    description := "HTTP DELETE request"
    default_config := Json.obj [("url", Json.str "https://example.com")]
    generate_code := fun node_id config _input_var =>
      let url := ((config.index "url").as_str).getD "https://example.com"
      "    let " ++ node_id ++ "_out = http_request(\"DELETE\", \"" ++ url
        ++ "\", null, \x7b\x7d);\n" }

/-- `nodes.rs` static `HTTP_REQUEST`. -/
def HTTP_REQUEST : NodeDef :=
  { name := "http_request", category := "HTTP"
    description := "Custom HTTP request"
    default_config := Json.obj
      [("method", Json.str "GET"), ("url", Json.str "https://example.com")]
    generate_code := fun node_id config input_var =>
      let url := ((config.index "url").as_str).getD "https://example.com"
      let method := ((config.index "method").as_str).getD "GET"
      let body := input_var.getD "null"
      "    let " ++ node_id ++ "_out = http_request(\"" ++ method
        ++ "\", \"" ++ url ++ "\", " ++ body ++ ", \x7b\x7d);\n" }

/-- `nodes.rs` static `JSON_PARSE`. -/
def JSON_PARSE : NodeDef :=
  { name := "json_parse", category := "Data"
    description := "Parse JSON string"
    default_config := Json.obj []
    generate_code := fun node_id _config input_var =>
      let input := input_var.getD "null"
      "    let " ++ node_id ++ "_out = json_parse(" ++ input ++ ");\n" }

/-- `nodes.rs` static `JSON_STRINGIFY`. -/
def JSON_STRINGIFY : NodeDef :=
  { name := "json_stringify", category := "Data"
    description := "Convert value to JSON string"
    default_config := Json.obj []
    generate_code := fun node_id _config input_var =>
      let input := input_var.getD "null"
      "    let " ++ node_id ++ "_out = json_stringify(" ++ input ++ ");\n" }

/-- `nodes.rs` static `JSON_GET`. -/
def JSON_GET : NodeDef :=
  { name := "json_get", category := "Data"
    description := "Get value from JSON object"
    default_config := Json.obj [("key", Json.str "field")]
    generate_code := fun node_id config input_var =>
      let input := input_var.getD "null"
      let key := ((config.index "key").as_str).getD "field"
      "    let " ++ node_id ++ "_out = get(" ++ input ++ ", \"" ++ key
        ++ "\");\n" }

/-- `nodes.rs` static `JSON_SET`. -/
def JSON_SET : NodeDef :=
  { name := "json_set", category := "Data"
    description := "Set value in JSON object"
    default_config := Json.obj [("key", Json.str "field"), ("value", Json.str "")]
    generate_code := fun node_id config input_var =>
      let input := input_var.getD "\x7b\x7d"
      let key := ((config.index "key").as_str).getD "field"
      let value := ((config.index "value").as_str).getD ""
      "    let " ++ node_id ++ "_out = set(" ++ input ++ ", \"" ++ key
        ++ "\", \"" ++ value ++ "\");\n" }

/-- `nodes.rs` static `STRING_CONCAT`. -/
def STRING_CONCAT : NodeDef :=
  { name := "string_concat", category := "Data"
    description := "Concatenate strings"
    default_config := Json.obj [("separator", Json.str "")]
    generate_code := fun node_id config input_var =>
      let input := input_var.getD "\"\""
      let sep := ((config.index "separator").as_str).getD ""
      "    let " ++ node_id ++ "_out = concat(" ++ input ++ ", \"" ++ sep
        ++ "\");\n" }

/-- `nodes.rs` static `STRING_UPPER`. -/
def STRING_UPPER : NodeDef :=
  { name := "string_upper", category := "Data"
    description := "Convert to uppercase"
    default_config := Json.obj []
    generate_code := fun node_id _config input_var =>
      let input := input_var.getD "\"\""
      "    let " ++ node_id ++ "_out = to_upper(" ++ input ++ ");\n" }

/-- `nodes.rs` static `STRING_LOWER`. -/
def STRING_LOWER : NodeDef :=
  { name := "string_lower", category := "Data"
    description := "Convert to lowercase"
    default_config := Json.obj []
    generate_code := fun node_id _config input_var =>
      let input := input_var.getD "\"\""
      "    let " ++ node_id ++ "_out = to_lower(" ++ input ++ ");\n" }

/-- `nodes.rs` static `STRING_TRIM`. -/
def STRING_TRIM : NodeDef :=
  { name := "string_trim", category := "Data"
    description := "Trim whitespace"
    default_config := Json.obj []
    generate_code := fun node_id _config input_var =>
      let input := input_var.getD "\"\""
      "    let " ++ node_id ++ "_out = trim(" ++ input ++ ");\n" }

/-- `nodes.rs` static `STRING_SPLIT` (body is a fixed TODO: the computed
input and delimiter are unused in the source). -/
def STRING_SPLIT : NodeDef :=
  { name := "string_split", category := "Data"
    description := "Split string into array"
    default_config := Json.obj [("delimiter", Json.str ",")]
    generate_code := fun node_id _config _input_var =>
      "    // TODO: Implement string_split\n    let " ++ node_id
        ++ "_out = [];\n" }

/-- `nodes.rs` static `STRING_REPLACE`. -/
def STRING_REPLACE : NodeDef :=
  { name := "string_replace", category := "Data"
    description := "Replace substring"
    default_config := Json.obj [("find", Json.str ""), ("replace", Json.str "")]
    generate_code := fun node_id _config input_var =>
      let input := input_var.getD "\"\""
      "    // TODO: Implement string_replace\n    let " ++ node_id
        ++ "_out = " ++ input ++ ";\n" }

/-- `nodes.rs` static `STRING_LENGTH`. -/
def STRING_LENGTH : NodeDef :=
  { name := "string_length", category := "Data"
    description := "Get string length"
    default_config := Json.obj []
    generate_code := fun node_id _config input_var =>
      let input := input_var.getD "\"\""
      "    let " ++ node_id ++ "_out = strlen(" ++ input ++ ");\n" }

/-- `nodes.rs` static `ARRAY_MAP`. -/
def ARRAY_MAP : NodeDef :=
  { name := "array_map", category := "Data"
    description := "Map function over array"
    default_config := Json.obj [("function", Json.str "")]
    generate_code := fun node_id _config _input_var =>
      "    // TODO: Implement array_map\n    let " ++ node_id
        ++ "_out = [];\n" }

/-- `nodes.rs` static `ARRAY_FILTER`. -/
def ARRAY_FILTER : NodeDef :=
  { name := "array_filter", category := "Data"
    description := "Filter array elements"
    default_config := Json.obj [("condition", Json.str "")]
    generate_code := fun node_id _config _input_var =>
      "    // TODO: Implement array_filter\n    let " ++ node_id
        ++ "_out = [];\n" }

/-- `nodes.rs` static `ARRAY_REDUCE`. -/
def ARRAY_REDUCE : NodeDef :=
  { name := "array_reduce", category := "Data"
    description := "Reduce array to single value"
    default_config := Json.obj [("initial", Json.intNum 0)]
    generate_code := fun node_id _config _input_var =>
      "    // TODO: Implement array_reduce\n    let " ++ node_id
        ++ "_out = null;\n" }

/-- `nodes.rs` static `ARRAY_SLICE`. -/
def ARRAY_SLICE : NodeDef :=
  { name := "array_slice", category := "Data"
    description := "Slice array"
    default_config := Json.obj [("start", Json.intNum 0), ("end", Json.intNum 10)]
    generate_code := fun node_id config input_var =>
      let input := input_var.getD "[]"
      let start := ((config.index "start").as_i64).getD 0
      let stop := ((config.index "end").as_i64).getD 10
      "    let " ++ node_id ++ "_out = arr_slice(" ++ input ++ ", "
        ++ toString start ++ ", " ++ toString stop ++ ");\n" }

/-- `nodes.rs` static `ARRAY_CONCAT`. -/
def ARRAY_CONCAT : NodeDef :=
  { name := "array_concat", category := "Data"
    description := "Concatenate arrays"
    default_config := Json.obj []
    generate_code := fun node_id _config input_var =>
      let input := input_var.getD "[]"
      "    let " ++ node_id ++ "_out = arr_concat(" ++ input ++ ", []);\n" }

/-- `nodes.rs` static `ARRAY_SORT`. -/
def ARRAY_SORT : NodeDef :=
  { name := "array_sort", category := "Data"
    description := "Sort array"
    default_config := Json.obj [("order", Json.str "asc")]
    generate_code := fun node_id _config input_var =>
      let input := input_var.getD "[]"
      "    // TODO: Implement array_sort\n    let " ++ node_id
        ++ "_out = " ++ input ++ ";\n" }

/-- `nodes.rs` static `ARRAY_LENGTH`. -/
def ARRAY_LENGTH : NodeDef :=
  { name := "array_length", category := "Data"
    description := "Get array length"
    default_config := Json.obj []
    generate_code := fun node_id _config input_var =>
      let input := input_var.getD "[]"
      "    let " ++ node_id ++ "_out = len(" ++ input ++ ");\n" }

/-- `nodes.rs` static `OBJECT_GET`. -/
def OBJECT_GET : NodeDef :=
  { name := "object_get", category := "Data"
    description := "Get object property"
    default_config := Json.obj [("key", Json.str "field")]
    generate_code := fun node_id config input_var =>
      let input := input_var.getD "\x7b\x7d"
      let key := ((config.index "key").as_str).getD "field"
      "    let " ++ node_id ++ "_out = get(" ++ input ++ ", \"" ++ key
        ++ "\");\n" }

/-- `nodes.rs` static `OBJECT_SET`. -/
def OBJECT_SET : NodeDef :=
  { name := "object_set", category := "Data"
    description := "Set object property"
    default_config := Json.obj [("key", Json.str "field"), ("value", Json.str "")]
    generate_code := fun node_id config input_var =>
      let input := input_var.getD "\x7b\x7d"
      let key := ((config.index "key").as_str).getD "field"
      let value := ((config.index "value").as_str).getD ""
      "    let " ++ node_id ++ "_out = set(" ++ input ++ ", \"" ++ key
        ++ "\", \"" ++ value ++ "\");\n" }

/-- `nodes.rs` static `OBJECT_KEYS`. -/
def OBJECT_KEYS : NodeDef :=
  { name := "object_keys", category := "Data"
    description := "Get object keys"
    default_config := Json.obj []
    generate_code := fun node_id _config input_var =>
      let input := input_var.getD "\x7b\x7d"
      "    let " ++ node_id ++ "_out = keys(" ++ input ++ ");\n" }

/-- `nodes.rs` static `OBJECT_VALUES`. -/
def OBJECT_VALUES : NodeDef :=
  { name := "object_values", category := "Data"
    description := "Get object values"
    default_config := Json.obj []
    generate_code := fun node_id _config input_var =>
      let input := input_var.getD "\x7b\x7d"
      "    let " ++ node_id ++ "_out = values(" ++ input ++ ");\n" }

/-- `nodes.rs` static `OBJECT_HAS_KEY`. -/
def OBJECT_HAS_KEY : NodeDef :=
  { name := "object_has_key", category := "Data"
    description := "Check if object has key"
    default_config := Json.obj [("key", Json.str "field")]
    generate_code := fun node_id config input_var =>
      let input := input_var.getD "\x7b\x7d"
      let key := ((config.index "key").as_str).getD "field"
      "    let " ++ node_id ++ "_out = has_key(" ++ input ++ ", \"" ++ key
        ++ "\");\n" }

/-- `nodes.rs` static `FILE_READ`. -/
def FILE_READ : NodeDef :=
  { name := "file_read", category := "Files"
    description := "Read file contents"
    default_config := Json.obj [("path", Json.str "file.txt")]
    generate_code := fun node_id config _input_var =>
      let path := ((config.index "path").as_str).getD "file.txt"
      "    let " ++ node_id ++ "_out = read_file(\"" ++ path ++ "\");\n" }

/-- `nodes.rs` static `FILE_WRITE`. -/
def FILE_WRITE : NodeDef :=
  { name := "file_write", category := "Files"
    description := "Write file contents"
    default_config := Json.obj [("path", Json.str "file.txt")]
    generate_code := fun node_id config input_var =>
      let path := ((config.index "path").as_str).getD "file.txt"
      let content := input_var.getD "\"\""
      "    let " ++ node_id ++ "_out = write_file(\"" ++ path ++ "\", "
        ++ content ++ ");\n" }

/-- `nodes.rs` static `FILE_EXISTS`. -/
def FILE_EXISTS : NodeDef :=
  { name := "file_exists", category := "Files"
    description := "Check if file exists"
    default_config := Json.obj [("path", Json.str "file.txt")]
    generate_code := fun node_id config _input_var =>
      let path := ((config.index "path").as_str).getD "file.txt"
      "    let " ++ node_id ++ "_out = file_exists(\"" ++ path ++ "\");\n" }

/-- `nodes.rs` static `FILE_DELETE`. -/
def FILE_DELETE : NodeDef :=
  { name := "file_delete", category := "Files"
    description := "Delete file"
    default_config := Json.obj [("path", Json.str "file.txt")]
    generate_code := fun node_id config _input_var =>
      let path := ((config.index "path").as_str).getD "file.txt"
      "    let " ++ node_id ++ "_out = delete_file(\"" ++ path ++ "\");\n" }

/-- `nodes.rs` static `FILE_LIST`. -/
def FILE_LIST : NodeDef :=
  { name := "file_list", category := "Files"
    description := "List files in directory"
    default_config := Json.obj [("path", Json.str ".")]
    generate_code := fun node_id config _input_var =>
      let path := ((config.index "path").as_str).getD "."
      "    let " ++ node_id ++ "_out = list_files(\"" ++ path ++ "\");\n" }

/-- `nodes.rs` static `DIR_CREATE`. -/
def DIR_CREATE : NodeDef :=
  { name := "dir_create", category := "Files"
    description := "Create directory"
    default_config := Json.obj [("path", Json.str "new_dir")]
    generate_code := fun node_id config _input_var =>
      let path := ((config.index "path").as_str).getD "new_dir"
      "    let " ++ node_id ++ "_out = create_dir(\"" ++ path ++ "\");\n" }

/-- `nodes.rs` static `JSON_READ`. -/
def JSON_READ : NodeDef :=
  { name := "json_read", category := "Files"
    description := "Read JSON file"
    default_config := Json.obj [("path", Json.str "data.json")]
    generate_code := fun node_id config _input_var =>
      let path := ((config.index "path").as_str).getD "data.json"
      "    let " ++ node_id ++ "_out = read_json(\"" ++ path ++ "\");\n" }

/-- `nodes.rs` static `JSON_WRITE`. -/
def JSON_WRITE : NodeDef :=
  { name := "json_write", category := "Files"
    description := "Write JSON file"
    default_config := Json.obj [("path", Json.str "data.json")]
    generate_code := fun node_id config input_var =>
      let path := ((config.index "path").as_str).getD "data.json"
      let content := input_var.getD "null"
      "    let " ++ node_id ++ "_out = write_json(\"" ++ path ++ "\", "
        ++ content ++ ");\n" }

/-- `nodes.rs` static `MATH_ADD`. -/
def MATH_ADD : NodeDef :=
  { name := "math_add", category := "Math"
    description := "Add two numbers"
    default_config := Json.obj [("value", Json.intNum 0)]
    generate_code := fun node_id config input_var =>
      let input := input_var.getD "0"
      let value := ((config.index "value").as_i64).getD 0
      "    let " ++ node_id ++ "_out = " ++ input ++ " + "
        ++ toString value ++ ";\n" }

/-- `nodes.rs` static `MATH_SUBTRACT`. -/
def MATH_SUBTRACT : NodeDef :=
  { name := "math_subtract", category := "Math"
    description := "Subtract two numbers"
    default_config := Json.obj [("value", Json.intNum 0)]
    generate_code := fun node_id config input_var =>
      let input := input_var.getD "0"
      let value := ((config.index "value").as_i64).getD 0
      "    let " ++ node_id ++ "_out = " ++ input ++ " - "
        ++ toString value ++ ";\n" }

/-- `nodes.rs` static `MATH_MULTIPLY`. -/
def MATH_MULTIPLY : NodeDef :=
  { name := "math_multiply", category := "Math"
    description := "Multiply two numbers"
    default_config := Json.obj [("value", Json.intNum 1)]
    generate_code := fun node_id config input_var =>
      let input := input_var.getD "1"
      let value := ((config.index "value").as_i64).getD 1
      "    let " ++ node_id ++ "_out = " ++ input ++ " * "
        ++ toString value ++ ";\n" }

/-- `nodes.rs` static `MATH_DIVIDE`. -/
def MATH_DIVIDE : NodeDef :=
  { name := "math_divide", category := "Math"
    description := "Divide two numbers"
    default_config := Json.obj [("value", Json.intNum 1)]
    generate_code := fun node_id config input_var =>
      let input := input_var.getD "1"
      let value := ((config.index "value").as_i64).getD 1
      "    let " ++ node_id ++ "_out = " ++ input ++ " / "
        ++ toString value ++ ";\n" }

/-- `nodes.rs` static `MATH_FLOOR`. -/
def MATH_FLOOR : NodeDef :=
  { name := "math_floor", category := "Math"
    description := "Floor of number"
    default_config := Json.obj []
    generate_code := fun node_id _config input_var =>
      let input := input_var.getD "0"
      "    let " ++ node_id ++ "_out = floor(" ++ input ++ ");\n" }

/-- `nodes.rs` static `MATH_CEIL`. -/
def MATH_CEIL : NodeDef :=
  { name := "math_ceil", category := "Math"
    description := "Ceiling of number"
    default_config := Json.obj []
    generate_code := fun node_id _config input_var =>
      let input := input_var.getD "0"
      "    let " ++ node_id ++ "_out = ceil(" ++ input ++ ");\n" }

/-- `nodes.rs` static `MATH_ROUND`. -/
def MATH_ROUND : NodeDef :=
  { name := "math_round", category := "Math"
    description := "Round number"
    default_config := Json.obj []
    generate_code := fun node_id _config input_var =>
      let input := input_var.getD "0"
      "    let " ++ node_id ++ "_out = round(" ++ input ++ ");\n" }

/-- `nodes.rs` static `MATH_SQRT`. -/
def MATH_SQRT : NodeDef :=
  { name := "math_sqrt", category := "Math"
    description := "Square root"
    default_config := Json.obj []
    generate_code := fun node_id _config input_var =>
      let input := input_var.getD "0"
      "    let " ++ node_id ++ "_out = sqrt(" ++ input ++ ");\n" }

/-- `nodes.rs` static `MATH_RANDOM`. -/
def MATH_RANDOM : NodeDef :=
  { name := "math_random", category := "Math"
    description := "Random number (0-1)"
    default_config := Json.obj []
    generate_code := fun node_id _config _input_var =>
      "    let " ++ node_id ++ "_out = random();\n" }

/-- `nodes.rs` static `TO_STRING`. -/
def TO_STRING : NodeDef :=
  { name := "to_string", category := "Convert"
    description := "Convert to string"
    default_config := Json.obj []
    generate_code := fun node_id _config input_var =>
      let input := input_var.getD "null"
      "    let " ++ node_id ++ "_out = to_string(" ++ input ++ ");\n" }

/-- `nodes.rs` static `TO_INT`. -/
def TO_INT : NodeDef :=
  { name := "to_int", category := "Convert"
    description := "Convert to integer"
    default_config := Json.obj []
    generate_code := fun node_id _config input_var =>
      let input := input_var.getD "0"
      "    let " ++ node_id ++ "_out = to_int(" ++ input ++ ");\n" }

/-- `nodes.rs` static `TO_FLOAT`. -/
def TO_FLOAT : NodeDef :=
  { name := "to_float", category := "Convert"
    description := "Convert to float"
    default_config := Json.obj []
    generate_code := fun node_id _config input_var =>
      let input := input_var.getD "0"
      "    let " ++ node_id ++ "_out = to_float(" ++ input ++ ");\n" }

/-- The per-value data-store lines of the catalog `tensor_create`
generator (unlike the `flow.rs` branch: no row/column comment and no
division by `cols`). -/
def catalogTensorLines (id : String) : List Json → Nat → String
  | [], _ => ""
  | v :: rest, i =>
      let val := (v.as_f64_render).getD "0"
      "    let " ++ id ++ "_data = " ++ id ++ "_t[2];\n    " ++ id
        ++ "_data[" ++ toString i ++ "] = " ++ val ++ ";\n"
        ++ catalogTensorLines id rest (i + 1)

/-- `nodes.rs` static `TENSOR_CREATE`. -/
def TENSOR_CREATE : NodeDef :=
  { name := "tensor_create", category := "ML/GPU"
    description := "Create 2D tensor"
    default_config := Json.obj
      [("rows", Json.intNum 2), ("cols", Json.intNum 2),
       ("values", Json.arr [Json.floatNum "1", Json.floatNum "0",
         Json.floatNum "0", Json.floatNum "1"])]
    generate_code := fun node_id config _input_var =>
      let rows := ((config.index "rows").as_u64).getD 2
      let cols := ((config.index "cols").as_u64).getD 2
      let head := "    let " ++ node_id ++ "_t = tensor_new_2d("
        ++ toString rows ++ ", " ++ toString cols ++ ");\n"
      let mid :=
        match (config.index "values").as_array with
        | some values => catalogTensorLines node_id values 0
        | none => ""
      head ++ mid ++ "    let " ++ node_id ++ "_out = " ++ node_id
        ++ "_t;\n" }

/-- `nodes.rs` static `TENSOR_MATMUL`. -/
def TENSOR_MATMUL : NodeDef :=
  { name := "tensor_matmul", category := "ML/GPU"
    description := "Matrix multiplication"
    default_config := Json.obj []
    generate_code := fun node_id _config _input_var =>
      "    // TODO: Get two tensor inputs from edges\n    let " ++ node_id
        ++ "_out = null;\n" }

/-- `nodes.rs` static `TENSOR_ADD`. -/
def TENSOR_ADD : NodeDef :=
  { name := "tensor_add", category := "ML/GPU"
    description := "Element-wise tensor addition"
    default_config := Json.obj []
    generate_code := fun node_id _config _input_var =>
      "    // TODO: Get two tensor inputs from edges\n    let " ++ node_id
        ++ "_out = null;\n" }

/-- `nodes.rs` static `SLEEP`. -/
def SLEEP : NodeDef :=
  { name := "sleep", category := "System"
    description := "Sleep for milliseconds"
    default_config := Json.obj [("ms", Json.intNum 1000)]
    generate_code := fun node_id config input_var =>
      let ms := ((config.index "ms").as_i64).getD 1000
      let input := input_var.getD "null"
      "    sleep(" ++ toString ms ++ ");\n    let " ++ node_id
        ++ "_out = " ++ input ++ ";\n" }

/-- `nodes.rs` static `CAPTURE_SCREEN`. -/
def CAPTURE_SCREEN : NodeDef :=
  { name := "capture_screen", category := "System"
    description := "Capture screenshot"
    default_config := Json.obj []
    generate_code := fun node_id _config _input_var =>
      "    let " ++ node_id ++ "_out = capture_screen();\n" }

/-- `nodes.rs` `all_nodes()`: the registered node types in registration
order. -/
def all_nodes : List NodeDef :=
  [START, PRINT,
   HTTP_GET, HTTP_POST, HTTP_PUT, HTTP_DELETE, HTTP_REQUEST,
   JSON_PARSE, JSON_STRINGIFY, JSON_GET, JSON_SET,
   STRING_CONCAT, STRING_UPPER, STRING_LOWER, STRING_TRIM, STRING_SPLIT,
   STRING_REPLACE, STRING_LENGTH,
   ARRAY_MAP, ARRAY_FILTER, ARRAY_REDUCE, ARRAY_SLICE, ARRAY_CONCAT,
   ARRAY_SORT, ARRAY_LENGTH,
   OBJECT_GET, OBJECT_SET, OBJECT_KEYS, OBJECT_VALUES, OBJECT_HAS_KEY,
   FILE_READ, FILE_WRITE, FILE_EXISTS, FILE_DELETE, FILE_LIST, DIR_CREATE,
   JSON_READ, JSON_WRITE,
   MATH_ADD, MATH_SUBTRACT, MATH_MULTIPLY, MATH_DIVIDE, MATH_FLOOR,
   MATH_CEIL, MATH_ROUND, MATH_SQRT, MATH_RANDOM,
   TO_STRING, TO_INT, TO_FLOAT,
   TENSOR_CREATE, TENSOR_MATMUL, TENSOR_ADD,
   SLEEP, CAPTURE_SCREEN]

/-- Modelled from the spec: the catalog contract
`lookup(name) -> Option<OperatorDefinition>` (§4.1).  No lookup function
exists under `src/` (only `all_nodes` does); the spec-described lookup is
name search over the registration-ordered catalog. -/
def lookup (name : String) : Option NodeDef :=
  all_nodes.find? (fun d => d.name == name)

/-! ## Auxiliary notions used to state the claims -/

/-- Does the pattern match at the head of the list? -/
def leadsWith : List Char → List Char → Bool
  | _, [] => true
  | [], _ :: _ => false
  | c :: l, p :: ps => c == p && leadsWith l ps

/-- Index of the first occurrence of the pattern (second argument is the
text). -/
def occIdx (pat : List Char) : List Char → Option Nat
  | [] => if leadsWith [] pat then some 0 else none
  | c :: rest =>
      if leadsWith (c :: rest) pat then some 0
      else (occIdx pat rest).map (fun i => i + 1)

/-- Number of positions at which the pattern occurs. -/
def countOcc (pat : List Char) : List Char → Nat
  | [] => if leadsWith [] pat then 1 else 0
  | c :: rest =>
      (if leadsWith (c :: rest) pat then 1 else 0) + countOcc pat rest

/-- Index of the first occurrence of `pat` in `s`. -/
def strOccIdx (s pat : String) : Option Nat :=
  occIdx pat.data s.data

/-- Number of occurrences of `pat` in `s`. -/
def strCountOcc (s pat : String) : Nat :=
  countOcc pat.data s.data

/-- Boolean: does `pat` occur in `s`? -/
def hasOcc (s pat : String) : Bool :=
  (strOccIdx s pat).isSome

/-- Boolean: do `a` and `b` both occur in `s`, with the first occurrence
of `a` strictly before the first occurrence of `b`? -/
def occBefore (s a b : String) : Bool :=
  match strOccIdx s a, strOccIdx s b with
  | some i, some j => decide (i < j)
  | _, _ => false

/-- Propositional occurrence: `s` splits around `pat`. -/
def occursIn (s pat : String) : Prop :=
  ∃ pre post, s = pre ++ pat ++ post

/-- The block `b` contains an assignment binding `<id>_out`. -/
def bindsOut (b id : String) : Prop :=
  occursIn b ("let " ++ id ++ "_out = ")

/-- Fuel-bounded reachability along edges: `reachableIn f fuel a b` is
true when some walk of at most `fuel` edges leads from id `a` to id `b`.
A walk, if one exists, can be shortened to visit no id twice, so
`f.edges.length` fuel is always enough. -/
def reachableIn (f : Flow) : Nat → String → String → Bool
  | 0, a, b => a == b
  | fuel + 1, a, b =>
      a == b ||
        f.edges.any (fun e => e.source == a && reachableIn f fuel e.target b)

/-- An edge lies on a cycle exactly when its target reaches its source. -/
def edgeOnCycle (f : Flow) (e : Edge) : Bool :=
  reachableIn f f.edges.length e.target e.source

/-- The node is a sink: it is the source of no edge. -/
def isSink (f : Flow) (n : Node) : Prop :=
  ∀ e ∈ f.edges, e.source ≠ n.id

/-! ## Concrete flows used by counterexamples and witnesses -/

/-- Shorthand for a node (no UI position). -/
def mkNode (id ty : String) (cfg : Json) : Node :=
  ⟨id, ty, cfg⟩

/-- Shorthand for an edge without port handles. -/
def mkEdge (s t : String) : Edge :=
  ⟨s, t, none, none⟩

/-- Node `A` is declared after node `B` but feeds it through the only
edge; the edge lies on no cycle. -/
def flowDeclOrder : Flow :=
  ⟨[mkNode "B" "json_parse" (Json.obj []), mkNode "A" "start" (Json.obj [])],
   [mkEdge "A" "B"]⟩

/-- A one-node flow whose only edge is a self-loop. -/
def flowSelfLoop : Flow :=
  ⟨[mkNode "A" "json_parse" (Json.obj [])], [mkEdge "A" "A"]⟩

/-- A two-node flow with a mutual edge pair. -/
def flowMutual : Flow :=
  ⟨[mkNode "A" "json_parse" (Json.obj []), mkNode "B" "print" (Json.obj [])],
   [mkEdge "A" "B", mkEdge "B" "A"]⟩

/-- An edgeless (hence acyclic, dangling-free) flow whose single
`tensor_create` node configures `cols = 0` with a non-empty `values`
array. -/
def flowColsZero : Flow :=
  ⟨[mkNode "T" "tensor_create"
      (Json.obj [("cols", Json.intNum 0),
                 ("values", Json.arr [Json.floatNum "1"])])],
   []⟩

/-- A single node whose operator `http_get` is registered in the catalog
but absent from the hard-coded `match` of `compile_to_hlx`. -/
def flowHttpGet : Flow :=
  ⟨[mkNode "n1" "http_get" (Json.obj [])], []⟩

/-- The single edge names source `ghost`, which is not a node. -/
def flowGhost : Flow :=
  ⟨[mkNode "B" "json_parse" (Json.obj [])], [mkEdge "ghost" "B"]⟩

/-- A two-node flow whose second node has an operator absent from both
the `match` and the catalog. -/
def flowUnknown : Flow :=
  ⟨[mkNode "S" "start" (Json.obj []),
    mkNode "U" "totally_unknown_op" (Json.obj [])],
   [mkEdge "S" "U"]⟩

/-- A three-node linear chain `A → B → C`. -/
def flowChain : Flow :=
  ⟨[mkNode "A" "start" (Json.obj []), mkNode "B" "json_parse" (Json.obj []),
    mkNode "C" "print" (Json.obj [])],
   [mkEdge "A" "B", mkEdge "B" "C"]⟩

/-- Node `D` (`json_parse`) has two incoming edges, added `X` then `Y`. -/
def flowTwoIn : Flow :=
  ⟨[mkNode "X" "start" (Json.obj []), mkNode "Y" "start" (Json.obj []),
    mkNode "D" "json_parse" (Json.obj [])],
   [mkEdge "X" "D", mkEdge "Y" "D"]⟩

/-- Node `D` (`tensor_op`) has two incoming edges, added `X` then `Y`. -/
def flowTensorTwo : Flow :=
  ⟨[mkNode "X" "start" (Json.obj []), mkNode "Y" "start" (Json.obj []),
    mkNode "D" "tensor_op" (Json.obj [("op", Json.str "dot")])],
   [mkEdge "X" "D", mkEdge "Y" "D"]⟩

/-- One copy of a two-node flow. -/
def flowCopyOne : Flow :=
  ⟨[mkNode "A" "start" (Json.obj []),
    mkNode "B" "http_request" (Json.obj [("url", Json.str "https://x.io")])],
   [mkEdge "A" "B"]⟩

/-- A second, separately written copy of the same flow value. -/
def flowCopyTwo : Flow :=
  ⟨[mkNode "A" "start" (Json.obj []),
    mkNode "B" "http_request" (Json.obj [("url", Json.str "https://x.io")])],
   [mkEdge "A" "B"]⟩

/-! ## Shared lemmas -/

/-- A pattern matches at the head of itself followed by anything. -/
theorem leadsWith_append (pat rest : List Char) :
    leadsWith (pat ++ rest) pat = true := by
  induction pat with
  | nil => simp [leadsWith]
  | cons p ps ih => simp [leadsWith, ih]

/-- When the pattern matches at the head, the first occurrence is 0. -/
theorem occIdx_of_leadsWith (pat l : List Char) (h : leadsWith l pat = true) :
    occIdx pat l = some 0 := by
  cases l <;> simp [occIdx, h]

/-- A pattern occurring as a middle factor is found by `occIdx`. -/
theorem occIdx_append_isSome (pat pre post : List Char) :
    (occIdx pat (pre ++ (pat ++ post))).isSome = true := by
  induction pre with
  | nil =>
      rw [List.nil_append, occIdx_of_leadsWith pat _ (leadsWith_append pat post)]
      rfl
  | cons c pre ih =>
      rw [List.cons_append, occIdx]
      split
      · rfl
      · simpa using ih

/-- Propositional occurrence implies the Boolean search succeeds. -/
theorem hasOcc_of_occursIn (s pat : String) (h : occursIn s pat) :
    hasOcc s pat = true := by
  obtain ⟨pre, post, rfl⟩ := h
  have hd : (pre ++ pat ++ post).data = pre.data ++ (pat.data ++ post.data) := by
    simp [String.data_append]
  rw [hasOcc, strOccIdx, hd]
  exact occIdx_append_isSome pat.data pre.data post.data

/-- A successful `List.find?` splits the list at the first hit. -/
theorem find?_decomp {α : Type} (p : α → Bool) :
    ∀ (l : List α) (a : α), l.find? p = some a →
      ∃ l₁ l₂, l = l₁ ++ a :: l₂ ∧ p a = true ∧ ∀ x ∈ l₁, p x = false := by
  intro l
  induction l with
  | nil => intro a h; simp [List.find?] at h
  | cons b rest ih =>
      intro a h
      rw [List.find?] at h
      cases hpb : p b with
      | true =>
          rw [hpb] at h
          obtain rfl : b = a := by simpa using h
          exact ⟨[], rest, rfl, hpb, by simp⟩
      | false =>
          rw [hpb] at h
          obtain ⟨l₁, l₂, rfl, ha, hall⟩ := ih a h
          refine ⟨b :: l₁, l₂, rfl, ha, ?_⟩
          intro x hx
          rcases List.mem_cons.mp hx with rfl | hx
          · exact hpb
          · exact hall x hx

namespace Flow

/-- Concatenating blocks over an appended node list. -/
theorem emitNodes_append_of (f : Flow) :
    ∀ (l₁ l₂ : List Node) (s₁ s₂ : String),
      f.emitNodes l₁ = some s₁ → f.emitNodes l₂ = some s₂ →
      f.emitNodes (l₁ ++ l₂) = some (s₁ ++ s₂) := by
  intro l₁
  induction l₁ with
  | nil =>
      intro l₂ s₁ s₂ h₁ h₂
      obtain rfl : "" = s₁ := by simpa [emitNodes] using h₁
      simpa using h₂
  | cons n rest ih =>
      intro l₂ s₁ s₂ h₁ h₂
      rw [emitNodes] at h₁
      rw [List.cons_append, emitNodes]
      cases hb : f.nodeBlock n with
      | none => rw [hb] at h₁; simp at h₁
      | some b =>
          rw [hb] at h₁
          cases hr : f.emitNodes rest with
          | none => rw [hr] at h₁; simp at h₁
          | some s₃ =>
              rw [hr] at h₁
              obtain rfl : b ++ s₃ = s₁ := by simpa using h₁
              rw [ih l₂ s₃ s₂ hr h₂]
              simp [String.append_assoc]

/-- Splitting blocks over an appended node list. -/
theorem emitNodes_append_some (f : Flow) :
    ∀ (l₁ l₂ : List Node) (s : String),
      f.emitNodes (l₁ ++ l₂) = some s →
      ∃ s₁ s₂, f.emitNodes l₁ = some s₁ ∧ f.emitNodes l₂ = some s₂ ∧
        s = s₁ ++ s₂ := by
  intro l₁
  induction l₁ with
  | nil =>
      intro l₂ s h
      exact ⟨"", s, rfl, by simpa using h, rfl⟩
  | cons n rest ih =>
      intro l₂ s h
      rw [List.cons_append, emitNodes] at h
      cases hb : f.nodeBlock n with
      | none => rw [hb] at h; simp at h
      | some b =>
          rw [hb] at h
          cases hr : f.emitNodes (rest ++ l₂) with
          | none => rw [hr] at h; simp at h
          | some s₃ =>
              rw [hr] at h
              obtain rfl : b ++ s₃ = s := by simpa using h
              obtain ⟨s₁, s₂, hr₁, hr₂, rfl⟩ := ih l₂ s₃ hr
              refine ⟨b ++ s₁, s₂, ?_, hr₂, by simp [String.append_assoc]⟩
              rw [emitNodes, hb, hr₁]

/-- Splitting a node's block out of a successful `emitNodes`. -/
theorem emitNodes_cons_some (f : Flow) (n : Node) (l : List Node) (s : String)
    (h : f.emitNodes (n :: l) = some s) :
    ∃ b s₂, f.nodeBlock n = some b ∧ f.emitNodes l = some s₂ ∧ s = b ++ s₂ := by
  rw [emitNodes] at h
  cases hb : f.nodeBlock n with
  | none => rw [hb] at h; simp at h
  | some b =>
      rw [hb] at h
      cases hr : f.emitNodes l with
      | none => rw [hr] at h; simp at h
      | some s₂ =>
          rw [hr] at h
          exact ⟨b, s₂, rfl, rfl, by simpa using h.symm⟩

/-- A successful compilation around one distinguished node: the output
text splits around that node's block. -/
theorem compile_decomp (f : Flow) (l₁ l₂ : List Node) (n : Node)
    (txt : String) (hn : f.nodes = l₁ ++ n :: l₂)
    (hc : f.compile_to_hlx = some txt) :
    ∃ b pre post, f.nodeBlock n = some b ∧ txt = pre ++ b ++ post := by
  rw [compile_to_hlx] at hc
  cases he : f.emitNodes f.nodes with
  | none => rw [he] at hc; simp at hc
  | some body =>
      rw [he] at hc
      rw [hn] at he
      obtain ⟨s₁, s₂, h₁, h₂, rfl⟩ := f.emitNodes_append_some l₁ (n :: l₂) body he
      obtain ⟨b, s₃, hb, h₃, rfl⟩ := f.emitNodes_cons_some n l₂ s₂ h₂
      refine ⟨b, "program workflow \x7b\n\nfn main(input) \x7b\n" ++ s₁,
        s₃ ++ f.returnStmt ++ "\x7d\n\n" ++ "\x7d\n", hb, ?_⟩
      obtain rfl : _ = txt := by simpa using hc
      simp [String.append_assoc]

/-- A successful compilation around two distinguished nodes in
declaration order: the output text splits around their blocks, in that
order. -/
theorem compile_decomp₂ (f : Flow) (l₁ l₂ l₃ : List Node) (n m : Node)
    (txt : String) (hn : f.nodes = l₁ ++ n :: (l₂ ++ m :: l₃))
    (hc : f.compile_to_hlx = some txt) :
    ∃ bn bm pre mid post, f.nodeBlock n = some bn ∧ f.nodeBlock m = some bm ∧
      txt = pre ++ bn ++ mid ++ bm ++ post := by
  rw [compile_to_hlx] at hc
  cases he : f.emitNodes f.nodes with
  | none => rw [he] at hc; simp at hc
  | some body =>
      rw [he] at hc
      rw [hn] at he
      obtain ⟨s₁, s₂, h₁, h₂, rfl⟩ :=
        f.emitNodes_append_some l₁ (n :: (l₂ ++ m :: l₃)) body he
      obtain ⟨bn, s₃, hbn, h₃, rfl⟩ := f.emitNodes_cons_some n _ s₂ h₂
      obtain ⟨s₄, s₅, h₄, h₅, rfl⟩ := f.emitNodes_append_some l₂ (m :: l₃) s₃ h₃
      obtain ⟨bm, s₆, hbm, h₆, rfl⟩ := f.emitNodes_cons_some m l₃ s₅ h₅
      refine ⟨bn, bm, "program workflow \x7b\n\nfn main(input) \x7b\n" ++ s₁,
        s₄, s₆ ++ f.returnStmt ++ "\x7d\n\n" ++ "\x7d\n", hbn, hbm, ?_⟩
      obtain rfl : _ = txt := by simpa using hc
      simp [String.append_assoc]

/-- The output text of a successful compilation ends with the return
statement and the footer. -/
theorem compile_suffix (f : Flow) (txt : String)
    (hc : f.compile_to_hlx = some txt) :
    ∃ pre, txt = pre ++ f.returnStmt ++ "\x7d\n\n" ++ "\x7d\n" := by
  rw [compile_to_hlx] at hc
  cases he : f.emitNodes f.nodes with
  | none => rw [he] at hc; simp at hc
  | some body =>
      rw [he] at hc
      refine ⟨"program workflow \x7b\n\nfn main(input) \x7b\n" ++ body, ?_⟩
      obtain rfl : _ = txt := by simpa using hc
      simp [String.append_assoc]

end Flow

namespace Flow

/-- The handled operator names of the `match` in `compile_to_hlx`. -/
def handledTypes : List String :=
  ["start", "http_request", "json_parse", "tensor_op", "tensor_create",
   "print"]

/-- Any operator name outside the six handled ones falls to the default
arm: a diagnostic comment plus a null binding. -/
theorem nodeBlock_unknown (f : Flow) (n : Node)
    (h : n.type_name ∉ handledTypes) :
    f.nodeBlock n = some ("    // Unknown node type: " ++ n.type_name ++ "\n"
      ++ "    let " ++ n.id ++ "_out = null;\n") := by
  simp [handledTypes] at h
  obtain ⟨h1, h2, h3, h4, h5, h6⟩ := h
  rw [nodeBlock]
  split
  · exact absurd (by assumption) h1
  · exact absurd (by assumption) h2
  · exact absurd (by assumption) h3
  · exact absurd (by assumption) h4
  · exact absurd (by assumption) h5
  · exact absurd (by assumption) h6
  · rfl

/-- A node's block depends on the flow only through its edge list. -/
theorem nodeBlock_congr (f g : Flow) (m : Node) (h : g.edges = f.edges) :
    g.nodeBlock m = f.nodeBlock m := by
  rw [nodeBlock, nodeBlock, find_input_var, find_input_var, h]

/-- Every arm except `tensor_create` returns a block. -/
theorem nodeBlock_total (f : Flow) (n : Node)
    (h : n.type_name ≠ "tensor_create") :
    ∃ b, f.nodeBlock n = some b := by
  rw [nodeBlock]
  split
  · exact ⟨_, rfl⟩
  · exact ⟨_, rfl⟩
  · exact ⟨_, rfl⟩
  · dsimp only
    split
    · exact ⟨_, rfl⟩
    · exact ⟨_, rfl⟩
  · exact absurd (by assumption) h
  · exact ⟨_, rfl⟩
  · exact ⟨_, rfl⟩

/-- The node loop succeeds when every block does. -/
theorem emitNodes_total (f : Flow) :
    ∀ (l : List Node), (∀ n ∈ l, f.nodeBlock n ≠ none) →
      ∃ s, f.emitNodes l = some s := by
  intro l
  induction l with
  | nil => intro _; exact ⟨"", rfl⟩
  | cons n rest ih =>
      intro h
      obtain ⟨s, hs⟩ := ih (fun m hm => h m (List.mem_cons_of_mem n hm))
      cases hb : f.nodeBlock n with
      | none => exact absurd hb (h n (List.mem_cons_self n rest))
      | some b =>
          refine ⟨b ++ s, ?_⟩
          rw [emitNodes, hb, hs]

/-- A successful `find_leaf_node` returns the first declared sink. -/
theorem find_leaf_decomp (f : Flow) (n : Node)
    (h : f.find_leaf_node = some n) :
    ∃ l₁ l₂, f.nodes = l₁ ++ n :: l₂ ∧ isSink f n ∧
      ∀ m ∈ l₁, ¬ isSink f m := by
  obtain ⟨l₁, l₂, hsplit, hn, hall⟩ := find?_decomp _ f.nodes n h
  refine ⟨l₁, l₂, hsplit, ?_, ?_⟩
  · intro e he
    rw [Bool.not_eq_true'] at hn
    have := List.any_eq_false.mp hn e he
    simpa using this
  · intro m hm hsink
    have hm2 := hall m hm
    rw [Bool.not_eq_false'] at hm2
    obtain ⟨e, he, hsrc⟩ := List.any_eq_true.mp hm2
    exact hsink e he (by simpa using hsrc)

/-- A failing `find_leaf_node` means no node is a sink. -/
theorem find_leaf_none (f : Flow) (h : f.find_leaf_node = none) :
    ∀ m ∈ f.nodes, ¬ isSink f m := by
  intro m hm hsink
  have hnot := List.find?_eq_none.mp h m hm
  rcases Bool.eq_false_or_eq_true (f.edges.any (fun e => e.source == m.id))
      with hb | hb
  · obtain ⟨e, he, hsrc⟩ := List.any_eq_true.mp hb
    exact hsink e he (by simpa using hsrc)
  · exact hnot (by rw [hb]; rfl)

end Flow

/-- Shape lemma: the `start` arm binds `<id>_out`. -/
theorem bindsOut_start (id : String) :
    bindsOut ("    let " ++ id ++ "_out = input;\n") id := by
  refine ⟨"    ", "input;\n", ?_⟩
  simp [String.append_assoc]
  rw [(by decide : ("    let " : String) = "    " ++ "let "),
    String.append_assoc]

/-- Shape lemma: the `http_request` arm binds `<id>_out`. -/
theorem bindsOut_http (id m u iv : String) :
    bindsOut ("    let " ++ id ++ "_out = http_request(\"" ++ m
      ++ "\", \"" ++ u ++ "\", " ++ iv ++ ", \x7b\x7d);\n") id := by
  refine ⟨"    ", "http_request(\"" ++ m ++ "\", \"" ++ u ++ "\", " ++ iv
    ++ ", \x7b\x7d);\n", ?_⟩
  rw [(by decide : ("    let " : String) = "    " ++ "let "),
    (by decide : ("_out = http_request(\"" : String)
      = "_out = " ++ "http_request(\"")]
  simp only [String.append_assoc]

/-- Shape lemma: the `json_parse` arm binds `<id>_out`. -/
theorem bindsOut_jsonParse (id iv : String) :
    bindsOut ("    let " ++ id ++ "_out = json_parse(" ++ iv ++ ");\n") id := by
  refine ⟨"    ", "json_parse(" ++ iv ++ ");\n", ?_⟩
  rw [(by decide : ("    let " : String) = "    " ++ "let "),
    (by decide : ("_out = json_parse(" : String) = "_out = " ++ "json_parse(")]
  simp only [String.append_assoc]

/-- Shape lemma: the two-input `tensor_op` arm binds `<id>_out`. -/
theorem bindsOut_tensorOp (id opf a b : String) :
    bindsOut ("    let " ++ id ++ "_out = " ++ opf ++ "(" ++ a ++ ", "
      ++ b ++ ");\n") id := by
  refine ⟨"    ", opf ++ "(" ++ a ++ ", " ++ b ++ ");\n", ?_⟩
  rw [(by decide : ("    let " : String) = "    " ++ "let ")]
  simp only [String.append_assoc]

/-- Shape lemma: the missing-inputs `tensor_op` arm binds `<id>_out`. -/
theorem bindsOut_tensorOpMissing (id : String) :
    bindsOut ("    let " ++ id
      ++ "_out = null; // Error: Missing inputs for tensor op\n") id := by
  refine ⟨"    ", "null; // Error: Missing inputs for tensor op\n", ?_⟩
  rw [(by decide : ("    let " : String) = "    " ++ "let "),
    (by decide : ("_out = null; // Error: Missing inputs for tensor op\n" :
      String) = "_out = " ++ "null; // Error: Missing inputs for tensor op\n")]
  simp only [String.append_assoc]

/-- Shape lemma: the `tensor_create` arm binds `<id>_out` after the
scratch `<id>_t` statements. -/
theorem bindsOut_tensorCreate (hd m id : String) :
    bindsOut (hd ++ m ++ "    let " ++ id ++ "_out = " ++ id ++ "_t;\n") id := by
  refine ⟨hd ++ m ++ "    ", id ++ "_t;\n", ?_⟩
  rw [(by decide : ("    let " : String) = "    " ++ "let ")]
  simp only [String.append_assoc]

/-- Shape lemma: the `print` arm binds `<id>_out`. -/
theorem bindsOut_print (id iv : String) :
    bindsOut ("    print(" ++ iv ++ ");\n"
      ++ "    let " ++ id ++ "_out = " ++ iv ++ ";\n") id := by
  refine ⟨"    print(" ++ iv ++ ");\n" ++ "    ", iv ++ ";\n", ?_⟩
  rw [(by decide : ("    let " : String) = "    " ++ "let ")]
  simp only [String.append_assoc]

/-- Shape lemma: the unknown-operator arm binds `<id>_out`. -/
theorem bindsOut_unknown (ty id : String) :
    bindsOut ("    // Unknown node type: " ++ ty ++ "\n"
      ++ "    let " ++ id ++ "_out = null;\n") id := by
  refine ⟨"    // Unknown node type: " ++ ty ++ "\n" ++ "    ",
    "null;\n", ?_⟩
  rw [(by decide : ("    let " : String) = "    " ++ "let "),
    (by decide : ("_out = null;\n" : String) = "_out = " ++ "null;\n")]
  simp only [String.append_assoc]

/-- Every arm of the node match publishes `<id>_out`. -/
theorem nodeBlock_bindsOut (f : Flow) (n : Node) (b : String)
    (h : f.nodeBlock n = some b) : bindsOut b n.id := by
  rw [Flow.nodeBlock] at h
  split at h
  · exact (Option.some.inj h) ▸ bindsOut_start n.id
  · exact (Option.some.inj h) ▸ bindsOut_http n.id _ _ _
  · exact (Option.some.inj h) ▸ bindsOut_jsonParse n.id _
  · dsimp only at h
    split at h
    · exact (Option.some.inj h) ▸ bindsOut_tensorOp n.id _ _ _
    · exact (Option.some.inj h) ▸ bindsOut_tensorOpMissing n.id
  · dsimp only at h
    split at h
    · exact absurd h (by simp)
    · exact (Option.some.inj h) ▸ bindsOut_tensorCreate _ _ n.id
  · exact (Option.some.inj h) ▸ bindsOut_print n.id _
  · exact (Option.some.inj h) ▸ bindsOut_unknown n.type_name n.id

namespace Flow

/-- The return statement names the found leaf node. -/
theorem returnStmt_some (f : Flow) (n : Node)
    (h : f.find_leaf_node = some n) :
    f.returnStmt = "    return " ++ n.id ++ "_out;\n" := by
  unfold returnStmt
  rw [h]

/-- The return statement falls back to `null` without a leaf node. -/
theorem returnStmt_none (f : Flow) (h : f.find_leaf_node = none) :
    f.returnStmt = "    return null;\n" := by
  unfold returnStmt
  rw [h]

/-- The `json_parse` arm of the node match. -/
theorem nodeBlock_json_parse (f : Flow) (n : Node)
    (hty : n.type_name = "json_parse") :
    f.nodeBlock n = some ("    let " ++ n.id ++ "_out = json_parse("
      ++ ((f.find_input_var n.id).getD "null") ++ ");\n") := by
  unfold nodeBlock
  rw [hty]
  rfl

end Flow

/-! ## Expected output texts of the concrete flows -/

/-- Output of `flowSelfLoop`. -/
def txtSelfLoop : String :=
  "program workflow \x7b\n\nfn main(input) \x7b\n    let A_out = json_parse(A_out);\n    return null;\n\x7d\n\n\x7d\n"

/-- Output of `flowMutual`. -/
def txtMutual : String :=
  "program workflow \x7b\n\nfn main(input) \x7b\n    let A_out = json_parse(B_out);\n    print(A_out);\n    let B_out = A_out;\n    return null;\n\x7d\n\n\x7d\n"

/-- Output of `flowDeclOrder`. -/
def txtDeclOrder : String :=
  "program workflow \x7b\n\nfn main(input) \x7b\n    let B_out = json_parse(A_out);\n    let A_out = input;\n    return B_out;\n\x7d\n\n\x7d\n"

/-- Output of `flowHttpGet`. -/
def txtHttpGet : String :=
  "program workflow \x7b\n\nfn main(input) \x7b\n    // Unknown node type: http_get\n    let n1_out = null;\n    return n1_out;\n\x7d\n\n\x7d\n"

/-- Output of `flowGhost`. -/
def txtGhost : String :=
  "program workflow \x7b\n\nfn main(input) \x7b\n    let B_out = json_parse(ghost_out);\n    return B_out;\n\x7d\n\n\x7d\n"

/-- Output of `flowChain`. -/
def txtChain : String :=
  "program workflow \x7b\n\nfn main(input) \x7b\n    let A_out = input;\n    let B_out = json_parse(A_out);\n    print(B_out);\n    let C_out = B_out;\n    return C_out;\n\x7d\n\n\x7d\n"

/-- Output of `flowTwoIn`. -/
def txtTwoIn : String :=
  "program workflow \x7b\n\nfn main(input) \x7b\n    let X_out = input;\n    let Y_out = input;\n    let D_out = json_parse(X_out);\n    return D_out;\n\x7d\n\n\x7d\n"

/-! ## Claims -/

/-- C3: the claim says `compile_to_hlx` cannot fail or panic on an
acyclic, dangling-free flow, even for a `tensor_create` node configured
with `cols = 0` and a non-empty `values` array.  The code divides by the
configured `cols`, so that configuration panics (`none`): the edgeless
flow `flowColsZero` has no cycle and no dangling edge, yet compilation
produces no text at all. -/
theorem C3_tensor_create_panic :
    flowColsZero.edges = [] ∧ flowColsZero.compile_to_hlx = none :=
  ⟨rfl, rfl⟩

/-- C9: every statement block emitted by `compile_to_hlx` — every arm of
the operator match, including the unknown-operator fallback and the
`tensor_create` arm that first uses the scratch variable `<id>_t` —
contains an assignment binding `<id>_out`. -/
theorem C9_variable_contract (f : Flow) (n : Node) (hn : n ∈ f.nodes)
    (b : String) (hb : f.nodeBlock n = some b) : bindsOut b n.id :=
  nodeBlock_bindsOut f n b hb

/-- Witness for C9 at the `start` node of the chain `A → B → C`. -/
theorem C9_variable_contract_witness :
    (mkNode "A" "start" (Json.obj [])) ∈ flowChain.nodes
    ∧ flowChain.nodeBlock (mkNode "A" "start" (Json.obj []))
        = some "    let A_out = input;\n"
    ∧ bindsOut "    let A_out = input;\n" "A" :=
  ⟨List.mem_cons_self _ _, rfl,
    C9_variable_contract flowChain _ (List.mem_cons_self _ _) _ rfl⟩

/-- C10: lowering is deterministic — the output depends only on the
node list and the edge list of the flow, so two flow values with equal
components compile to byte-identical results. -/
theorem C10_deterministic (f g : Flow) (hnodes : f.nodes = g.nodes)
    (hedges : f.edges = g.edges) : f.compile_to_hlx = g.compile_to_hlx := by
  cases f
  cases g
  cases hnodes
  cases hedges
  rfl

/-- Witness for C10 on two separately written copies of one flow. -/
theorem C10_deterministic_witness :
    flowCopyOne.nodes = flowCopyTwo.nodes
    ∧ flowCopyOne.edges = flowCopyTwo.edges
    ∧ flowCopyOne.compile_to_hlx = flowCopyTwo.compile_to_hlx :=
  ⟨rfl, rfl, C10_deterministic flowCopyOne flowCopyTwo rfl rfl⟩

set_option maxRecDepth 8192 in
/-- C1 counterexample: in `flowDeclOrder` the only edge `A → B` lies on
no cycle, yet the block of the target `B` (declared first) precedes the
block of the source `A` in the output text — each block occurs exactly
once, and `B`'s first occurrence is strictly earlier. -/
theorem C1_counterexample :
    flowDeclOrder.edges = [mkEdge "A" "B"]
    ∧ edgeOnCycle flowDeclOrder (mkEdge "A" "B") = false
    ∧ flowDeclOrder.compile_to_hlx = some txtDeclOrder
    ∧ strCountOcc txtDeclOrder "    let A_out = input;\n" = 1
    ∧ strCountOcc txtDeclOrder "    let B_out = json_parse(A_out);\n" = 1
    ∧ occBefore txtDeclOrder "    let B_out = json_parse(A_out);\n"
        "    let A_out = input;\n" = true
    ∧ occBefore txtDeclOrder "    let A_out = input;\n"
        "    let B_out = json_parse(A_out);\n" = false :=
  ⟨rfl, rfl, rfl, rfl, rfl, rfl, rfl⟩

/-- C1 (amended): emission order is declaration order, not dependency
order — whenever node `n` is declared before node `m`, `n`'s block
precedes `m`'s block in the output text, independently of the edges. -/
theorem C1_declaration_order_emission (f : Flow) (l₁ l₂ l₃ : List Node)
    (n m : Node) (txt : String)
    (hn : f.nodes = l₁ ++ n :: (l₂ ++ m :: l₃))
    (hc : f.compile_to_hlx = some txt) :
    ∃ bn bm pre mid post, f.nodeBlock n = some bn ∧ f.nodeBlock m = some bm ∧
      txt = pre ++ bn ++ mid ++ bm ++ post :=
  f.compile_decomp₂ l₁ l₂ l₃ n m txt hn hc

/-- Witness for C1 (amended) on the chain `A → B → C`. -/
theorem C1_declaration_order_emission_witness :
    flowChain.nodes = [] ++ mkNode "A" "start" (Json.obj [])
      :: ([] ++ mkNode "B" "json_parse" (Json.obj [])
        :: [mkNode "C" "print" (Json.obj [])])
    ∧ flowChain.compile_to_hlx = some txtChain
    ∧ ∃ bn bm pre mid post,
        flowChain.nodeBlock (mkNode "A" "start" (Json.obj [])) = some bn
        ∧ flowChain.nodeBlock (mkNode "B" "json_parse" (Json.obj [])) = some bm
        ∧ txtChain = pre ++ bn ++ mid ++ bm ++ post :=
  ⟨rfl, rfl,
    C1_declaration_order_emission flowChain [] []
      [mkNode "C" "print" (Json.obj [])] _ _ txtChain rfl rfl⟩

/-- C2 counterexample: the self-loop flow and the mutual-edge flow both
contain an edge on a cycle, yet compilation does not fail — it returns a
complete, non-empty program text (there is no `CyclicGraph` error channel
at all: `compile_to_hlx` can only return text or panic). -/
theorem C2_counterexample :
    flowSelfLoop.edges = [mkEdge "A" "A"]
    ∧ edgeOnCycle flowSelfLoop (mkEdge "A" "A") = true
    ∧ flowSelfLoop.compile_to_hlx = some txtSelfLoop
    ∧ txtSelfLoop ≠ ""
    ∧ flowMutual.edges = [mkEdge "A" "B", mkEdge "B" "A"]
    ∧ edgeOnCycle flowMutual (mkEdge "A" "B") = true
    ∧ flowMutual.compile_to_hlx = some txtMutual
    ∧ txtMutual ≠ "" :=
  ⟨rfl, rfl, rfl, by decide, rfl, rfl, rfl, by decide⟩

/-- C2 (amended): `compile_to_hlx` performs no cycle detection — a flow
containing an edge on a cycle still compiles to a full program (beginning
with the program header), provided every node's block generates, i.e. no
block hits the `tensor_create` division-by-zero panic of C3 (the only
way any block can fail). -/
theorem C2_no_cycle_detection (f : Flow)
    (hcyc : ∃ e ∈ f.edges, edgeOnCycle f e = true)
    (hnt : ∀ m ∈ f.nodes, f.nodeBlock m ≠ none) :
    ∃ rest, f.compile_to_hlx = some ("program workflow \x7b\n\n" ++ rest) := by
  obtain ⟨s, hs⟩ := f.emitNodes_total f.nodes hnt
  refine ⟨"fn main(input) \x7b\n" ++ s ++ f.returnStmt ++ "\x7d\n\n"
    ++ "\x7d\n", ?_⟩
  rw [Flow.compile_to_hlx, hs]
  simp only [Option.some.injEq]
  simp only [String.append_assoc]

/-- Witness for C2 (amended) at the self-loop flow. -/
theorem C2_no_cycle_detection_witness :
    (∃ e ∈ flowSelfLoop.edges, edgeOnCycle flowSelfLoop e = true)
    ∧ (∀ m ∈ flowSelfLoop.nodes, flowSelfLoop.nodeBlock m ≠ none)
    ∧ ∃ rest, flowSelfLoop.compile_to_hlx
        = some ("program workflow \x7b\n\n" ++ rest) :=
  ⟨by decide, by decide,
    C2_no_cycle_detection flowSelfLoop (by decide) (by decide)⟩

/-- C4 counterexample: `http_get` is registered in the catalog, but the
block `compile_to_hlx` emits for an `http_get` node is the
unknown-operator fallback, not the catalog generator's text. -/
theorem C4_counterexample :
    lookup "http_get" = some HTTP_GET
    ∧ HTTP_GET.generate_code "n1" (Json.obj []) none
        = "    let n1_out = http_request(\"GET\", \"https://example.com\", null, \x7b\x7d);\n"
    ∧ flowHttpGet.nodeBlock (mkNode "n1" "http_get" (Json.obj []))
        = some "    // Unknown node type: http_get\n    let n1_out = null;\n"
    ∧ flowHttpGet.compile_to_hlx = some txtHttpGet
    ∧ ("    // Unknown node type: http_get\n    let n1_out = null;\n" : String)
        ≠ "    let n1_out = http_request(\"GET\", \"https://example.com\", null, \x7b\x7d);\n" :=
  ⟨rfl, rfl, rfl, rfl, by decide⟩

/-- C4 (amended): the lowering engine never dispatches through the
catalog — a node whose operator name is catalog-registered but outside
the six hard-coded match arms takes the unknown-operator path. -/
theorem C4_no_catalog_dispatch (d : NodeDef) (hd : d ∈ all_nodes)
    (hout : d.name ∉ Flow.handledTypes)
    (f : Flow) (n : Node) (hn : n ∈ f.nodes) (hty : n.type_name = d.name) :
    f.nodeBlock n = some ("    // Unknown node type: " ++ n.type_name ++ "\n"
      ++ "    let " ++ n.id ++ "_out = null;\n") :=
  f.nodeBlock_unknown n (by rw [hty]; exact hout)

/-- Witness for C4 (amended) at an `http_get` node. -/
theorem C4_no_catalog_dispatch_witness :
    HTTP_GET ∈ all_nodes
    ∧ HTTP_GET.name ∉ Flow.handledTypes
    ∧ (mkNode "n1" "http_get" (Json.obj [])) ∈ flowHttpGet.nodes
    ∧ flowHttpGet.nodeBlock (mkNode "n1" "http_get" (Json.obj []))
        = some "    // Unknown node type: http_get\n    let n1_out = null;\n" :=
  ⟨List.mem_cons_of_mem _ (List.mem_cons_of_mem _ (List.mem_cons_self _ _)),
   by decide, List.mem_cons_self _ _,
   C4_no_catalog_dispatch HTTP_GET
     (List.mem_cons_of_mem _ (List.mem_cons_of_mem _ (List.mem_cons_self _ _)))
     (by decide) flowHttpGet _ (List.mem_cons_self _ _) rfl⟩

/-- C5 counterexample: the only edge of `flowGhost` names the
non-existent source `ghost`; compilation does not abort — it produces a
full program in which `B`'s input is silently resolved to `ghost_out`,
the output variable of a node that does not exist. -/
theorem C5_counterexample :
    flowGhost.edges = [mkEdge "ghost" "B"]
    ∧ (∀ m ∈ flowGhost.nodes, m.id ≠ "ghost")
    ∧ flowGhost.compile_to_hlx = some txtGhost
    ∧ hasOcc txtGhost "json_parse(ghost_out)" = true
    ∧ txtGhost ≠ "" :=
  ⟨rfl, by decide, rfl, rfl, by decide⟩

/-- C5 (amended): dangling edges are neither rejected nor dropped —
`find_input_var` resolves a node's input to `<source>_out` from the first
incoming edge without checking that the source node exists, so a
`json_parse` node fed only by a missing node emits a reference to the
missing node's output variable. -/
theorem C5_dangling_resolved (f : Flow) (id : String) (e : Edge)
    (hfind : f.edges.find? (fun x => x.target == id) = some e)
    (hmiss : ∀ m ∈ f.nodes, m.id ≠ e.source) :
    f.find_input_var id = some (e.source ++ "_out")
    ∧ ∀ n ∈ f.nodes, n.id = id → n.type_name = "json_parse" →
        f.nodeBlock n = some ("    let " ++ id ++ "_out = json_parse("
          ++ (e.source ++ "_out") ++ ");\n") := by
  have h1 : f.find_input_var id = some (e.source ++ "_out") := by
    rw [Flow.find_input_var, hfind]
    rfl
  refine ⟨h1, ?_⟩
  intro n hn hid hty
  rw [f.nodeBlock_json_parse n hty, hid, h1]
  rfl

/-- Witness for C5 (amended) at `flowGhost`. -/
theorem C5_dangling_resolved_witness :
    flowGhost.edges.find? (fun x => x.target == "B")
      = some (mkEdge "ghost" "B")
    ∧ (∀ m ∈ flowGhost.nodes, m.id ≠ (mkEdge "ghost" "B").source)
    ∧ (flowGhost.find_input_var "B"
        = some ((mkEdge "ghost" "B").source ++ "_out")
      ∧ ∀ n ∈ flowGhost.nodes, n.id = "B" → n.type_name = "json_parse" →
          flowGhost.nodeBlock n = some ("    let " ++ "B"
            ++ "_out = json_parse("
            ++ ((mkEdge "ghost" "B").source ++ "_out") ++ ");\n")) :=
  ⟨rfl, by decide,
    C5_dangling_resolved flowGhost "B" (mkEdge "ghost" "B") rfl (by decide)⟩

/-- C6: a node whose operator is outside the six handled names does not
abort compilation: its block is the diagnostic comment plus the null
binding for `<id>_out`; every node's block depends only on the edge
list (so removing the unknown node changes no other node's block); and
when every block generates, the whole program is produced and contains
the fallback block. -/
theorem C6_unknown_operator_tolerated (f : Flow) (n : Node)
    (hn : n ∈ f.nodes) (hunk : n.type_name ∉ Flow.handledTypes) :
    f.nodeBlock n = some ("    // Unknown node type: " ++ n.type_name ++ "\n"
        ++ "    let " ++ n.id ++ "_out = null;\n")
    ∧ (∀ (g : Flow) (m : Node), g.edges = f.edges →
        g.nodeBlock m = f.nodeBlock m)
    ∧ ((∀ m ∈ f.nodes, f.nodeBlock m ≠ none) →
        ∃ txt, f.compile_to_hlx = some txt ∧
          occursIn txt ("    // Unknown node type: " ++ n.type_name ++ "\n"
            ++ "    let " ++ n.id ++ "_out = null;\n")) := by
  refine ⟨f.nodeBlock_unknown n hunk,
    fun g m hg => Flow.nodeBlock_congr f g m hg, ?_⟩
  intro htot
  obtain ⟨s, hs⟩ := f.emitNodes_total f.nodes htot
  have hc : f.compile_to_hlx
      = some ("program workflow \x7b\n\n" ++ "fn main(input) \x7b\n"
        ++ s ++ f.returnStmt ++ "\x7d\n\n" ++ "\x7d\n") := by
    rw [Flow.compile_to_hlx, hs]
  obtain ⟨l₁, l₂, hsplit⟩ := List.append_of_mem hn
  obtain ⟨b, pre, post, hb, htxt⟩ := f.compile_decomp l₁ l₂ n _ hsplit hc
  rw [f.nodeBlock_unknown n hunk] at hb
  obtain rfl := (Option.some.inj hb)
  exact ⟨_, hc, pre, post, htxt⟩

/-- Witness for C6 at the `totally_unknown_op` node of `flowUnknown`. -/
theorem C6_unknown_operator_tolerated_witness :
    (mkNode "U" "totally_unknown_op" (Json.obj [])) ∈ flowUnknown.nodes
    ∧ ("totally_unknown_op" : String) ∉ Flow.handledTypes
    ∧ (flowUnknown.nodeBlock (mkNode "U" "totally_unknown_op" (Json.obj []))
        = some "    // Unknown node type: totally_unknown_op\n    let U_out = null;\n"
      ∧ (∀ (g : Flow) (m : Node), g.edges = flowUnknown.edges →
          g.nodeBlock m = flowUnknown.nodeBlock m)
      ∧ ((∀ m ∈ flowUnknown.nodes, flowUnknown.nodeBlock m ≠ none) →
          ∃ txt, flowUnknown.compile_to_hlx = some txt ∧
            occursIn txt "    // Unknown node type: totally_unknown_op\n    let U_out = null;\n")) :=
  ⟨List.mem_cons_of_mem _ (List.mem_cons_self _ _), by decide,
    C6_unknown_operator_tolerated flowUnknown _
      (List.mem_cons_of_mem _ (List.mem_cons_self _ _)) (by decide)⟩

/-- C7: the return statement of a successful compilation references
`<id>_out` of the first node in declaration order with zero outgoing
edges, and falls back to a `null` literal when no such sink exists (in
particular for an empty node list). -/
theorem C7_output_selection (f : Flow) (txt : String)
    (hc : f.compile_to_hlx = some txt) :
    (∃ n l₁ l₂, f.nodes = l₁ ++ n :: l₂ ∧ isSink f n
      ∧ (∀ m ∈ l₁, ¬ isSink f m)
      ∧ ∃ pre, txt = pre ++ ("    return " ++ n.id ++ "_out;\n")
          ++ "\x7d\n\n" ++ "\x7d\n")
    ∨ ((∀ m ∈ f.nodes, ¬ isSink f m)
      ∧ ∃ pre, txt = pre ++ "    return null;\n" ++ "\x7d\n\n" ++ "\x7d\n") := by
  obtain ⟨pre, hsuf⟩ := f.compile_suffix txt hc
  cases hleaf : f.find_leaf_node with
  | some n =>
      left
      obtain ⟨l₁, l₂, hsplit, hsink, hmin⟩ := f.find_leaf_decomp n hleaf
      refine ⟨n, l₁, l₂, hsplit, hsink, hmin, pre, ?_⟩
      rw [hsuf, f.returnStmt_some n hleaf]
  | none =>
      right
      refine ⟨f.find_leaf_none hleaf, pre, ?_⟩
      rw [hsuf, f.returnStmt_none hleaf]

/-- Witness for C7 on the chain `A → B → C` (the program returns
`C_out`). -/
theorem C7_output_selection_witness :
    flowChain.compile_to_hlx = some txtChain
    ∧ ((∃ n l₁ l₂, flowChain.nodes = l₁ ++ n :: l₂ ∧ isSink flowChain n
        ∧ (∀ m ∈ l₁, ¬ isSink flowChain m)
        ∧ ∃ pre, txtChain = pre ++ ("    return " ++ n.id ++ "_out;\n")
            ++ "\x7d\n\n" ++ "\x7d\n")
      ∨ ((∀ m ∈ flowChain.nodes, ¬ isSink flowChain m)
        ∧ ∃ pre, txtChain = pre ++ "    return null;\n"
            ++ "\x7d\n\n" ++ "\x7d\n")) :=
  ⟨rfl, C7_output_selection flowChain txtChain rfl⟩

/-- C8 counterexample: node `D` has two incoming edges, added `X` then
`Y`, but its emitted block refers only to `X_out`; the `Y` edge is
silently dropped (only `tensor_op` nodes read more than the first
incoming edge). -/
theorem C8_counterexample :
    flowTwoIn.edges = [mkEdge "X" "D", mkEdge "Y" "D"]
    ∧ flowTwoIn.nodeBlock (mkNode "D" "json_parse" (Json.obj []))
        = some "    let D_out = json_parse(X_out);\n"
    ∧ hasOcc "    let D_out = json_parse(X_out);\n" "Y_out" = false
    ∧ flowTwoIn.compile_to_hlx = some txtTwoIn :=
  ⟨rfl, rfl, rfl, rfl⟩

/-- C8 (amended): a `tensor_op` node receives its producers in the order
its incoming edges appear in the edge collection — with first two
incoming edges `e₁` then `e₂` it emits `(e₁.source_out, e₂.source_out)`,
never reordered; edges beyond the second are dropped, as is every edge
after the first for the other operator arms. -/
theorem C8_tensor_op_input_order (f : Flow) (n : Node) (e₁ e₂ : Edge)
    (rest : List Edge) (hty : n.type_name = "tensor_op")
    (hin : f.edges.filter (fun e => e.target == n.id) = e₁ :: e₂ :: rest) :
    f.nodeBlock n = some ("    let " ++ n.id ++ "_out = "
      ++ Flow.tensorOpFunc (((n.config.index "op").as_str).getD "dot") ++ "("
      ++ (e₁.source ++ "_out") ++ ", " ++ (e₂.source ++ "_out") ++ ");\n") := by
  unfold Flow.nodeBlock
  rw [hty]
  dsimp only
  rw [hin]
  rfl

/-- Witness for C8 (amended): `D` with edges added `X` then `Y` emits
`tensor_matmul(X_out, Y_out)`. -/
theorem C8_tensor_op_input_order_witness :
    flowTensorTwo.edges.filter (fun e => e.target == "D")
      = [mkEdge "X" "D", mkEdge "Y" "D"]
    ∧ flowTensorTwo.nodeBlock
        (mkNode "D" "tensor_op" (Json.obj [("op", Json.str "dot")]))
      = some "    let D_out = tensor_matmul(X_out, Y_out);\n" :=
  ⟨rfl, C8_tensor_op_input_order flowTensorTwo _ (mkEdge "X" "D")
    (mkEdge "Y" "D") [] rfl rfl⟩

end Autograph
